import Mathlib

/-!
Shallow embedding of `drake/systems/sensors/rgbd_sensor.cc` (classes
`RgbdSensor` and `RgbdSensorDiscrete`), used to check specification claims
about the RGB-D sensor core.

Modelling conventions:
* real-valued quantities (`double` / `float` in the source) are exact
  rationals;
* the `uint16_t` result of the depth quantizer is a natural number obtained
  by explicit truncation;
* the external geometry collaborator (`geometry::QueryObject<double>`) is a
  record of opaque functions (world poses of frames plus the three render
  capabilities), per section 6 of the specification;
* fallible evaluation (reading an unconnected input port) is `Except`.
-/

namespace DrakeRgbd

/-- Identifier of a geometry frame (`geometry::FrameId`). -/
structure FrameId where
  id : Nat
deriving DecidableEq

/-- The distinguished sentinel returned by
`SceneGraph<double>::world_frame_id()`.  Only its role as a distinguished
value matters; the concrete payload is arbitrary. -/
def worldFrameId : FrameId := ⟨0⟩

/-- A rigid transform (`math::RigidTransformd`): a rotation matrix plus a
translation vector. -/
structure RigidTransform where
  R : Matrix (Fin 3) (Fin 3) ℚ
  p : Fin 3 → ℚ
deriving DecidableEq

/-- Composition `X * Y` of rigid transforms, as `RigidTransformd::operator*`
computes it: rotations multiply, the translation is `R_X * p_Y + p_X`. -/
def RigidTransform.comp (X Y : RigidTransform) : RigidTransform :=
  ⟨X.R * Y.R, X.R.mulVec Y.p + X.p⟩

/-- The identity rigid transform (`RigidTransformd::Identity()`). -/
def RigidTransform.identity : RigidTransform := ⟨1, 0⟩

/-- An image buffer (`systems::sensors::Image<PixelType>`): fixed dimensions
plus pixel storage.  The accessor that the source calls `Image::at` is the
field `pix` (`at` is a reserved word here). -/
structure Image (α : Type) where
  width : Nat
  height : Nat
  pix : Nat → Nat → α

/-- Overwrite one pixel of an image buffer (the effect of writing through
`Image::at(w, h)`). -/
def Image.setPix {α : Type} (img : Image α) (w h : Nat) (v : α) : Image α :=
  { img with pix := fun w2 h2 => if w2 = w ∧ h2 = h then v else img.pix w2 h2 }

/-- A freshly constructed image with every pixel holding the default value
(Drake's image constructors zero-initialize the pixels). -/
def Image.const {α : Type} (w h : Nat) (v : α) : Image α := ⟨w, h, fun _ _ => v⟩

/-- Color pixel: four 8-bit channels.  The claims never inspect channels, so
the channel payload is an opaque 4-tuple of naturals. -/
abbrev RgbaPixel := Fin 4 → Nat

/-- The zero-initialized color pixel. -/
def defaultRgbaPixel : RgbaPixel := fun _ => 0

abbrev ImageRgba8U := Image RgbaPixel
abbrev ImageDepth32F := Image ℚ
abbrev ImageDepth16U := Image Nat
abbrev ImageLabel16I := Image ℤ

/-- Camera intrinsics (`systems::sensors::CameraInfo`). -/
structure CameraInfo where
  width : Nat
  height : Nat
  focal_x : ℚ
  focal_y : ℚ
  center_x : ℚ
  center_y : ℚ
  fov_y : ℚ
deriving DecidableEq

/-- Near/far clipping planes (`geometry::render::ClippingRange`). -/
structure ClippingRange where
  near : ℚ
  far : ℚ
deriving DecidableEq

/-- Common camera data (`geometry::render::RenderCameraCore`): renderer
name, intrinsics, clipping planes and the sensor-body offset `X_BC`
(`sensor_pose_in_camera_body`). -/
structure RenderCameraCore where
  renderer_name : String
  intrinsics : CameraInfo
  clipping : ClippingRange
  sensor_pose_in_camera_body : RigidTransform
deriving DecidableEq

/-- `geometry::render::ColorRenderCamera`. -/
structure ColorRenderCamera where
  core : RenderCameraCore
  show_window : Bool
deriving DecidableEq

/-- `geometry::render::DepthRange`. -/
structure DepthRange where
  min_depth : ℚ
  max_depth : ℚ
deriving DecidableEq

/-- `geometry::render::DepthRenderCamera`. -/
structure DepthRenderCamera where
  core : RenderCameraCore
  depth_range : DepthRange
deriving DecidableEq

/-- The legacy "simple" camera property tuple
(`geometry::render::CameraProperties`). -/
structure CameraProperties where
  width : Nat
  height : Nat
  fov_y : ℚ
  renderer_name : String
deriving DecidableEq

/-- The legacy "simple" depth camera property tuple
(`geometry::render::DepthCameraProperties`). -/
structure DepthCameraProperties where
  width : Nat
  height : Nat
  fov_y : ℚ
  renderer_name : String
  z_near : ℚ
  z_far : ℚ
deriving DecidableEq

/-- The argument tuple handed to `QueryObject::RenderColorImage` and
`QueryObject::RenderLabelImage`: simple camera properties, the frame the
camera pose is expressed in, that camera pose `X_PC`, and the show-window
flag. -/
structure SimpleRenderRequest where
  camera : CameraProperties
  parent_frame : FrameId
  X_PC : RigidTransform
  show_window : Bool
deriving DecidableEq

/-- The argument tuple handed to `QueryObject::RenderDepthImage`. -/
structure DepthRenderRequest where
  camera : DepthCameraProperties
  parent_frame : FrameId
  X_PC : RigidTransform
deriving DecidableEq

/-- The geometry collaborator (`geometry::QueryObject<double>`), specified
only at its interface boundary: world poses of frames (`X_WF`) plus the
three render capabilities, modelled as opaque functions. -/
structure QueryObject where
  X_WF : FrameId → RigidTransform
  renderColorImage : SimpleRenderRequest → ImageRgba8U
  renderDepthImage : DepthRenderRequest → ImageDepth32F
  renderLabelImage : SimpleRenderRequest → ImageLabel16I

/-- The slice of `systems::Context<double>` that the sensor reads: the value
on the abstract geometry-query input port, `none` when the port is not
connected. -/
structure Context where
  queryObject : Option QueryObject

/-- The non-fatal diagnostics the `RgbdSensor` constructor can emit, with
the data each message interpolates. -/
inductive ConstructionWarning where
  | complexIntrinsics (color_fx color_fy color_cx color_cy
      depth_fx depth_fy depth_cx depth_cy : ℚ)
  | maxDepthSaturation (max_depth limit : ℚ)
deriving DecidableEq

/-- The state an `RgbdSensor` holds after construction. -/
structure RgbdSensor where
  parent_frame_id : FrameId
  color_camera : ColorRenderCamera
  depth_camera : DepthRenderCamera
  X_PB : RigidTransform
deriving DecidableEq

/-- `(std::numeric_limits<uint16_t>::max() - 1) / 1000.`, the maximum depth
in meters representable by the 16-bit millimeter image (constructor check). -/
def kMaxValidDepth16UInM : ℚ := (65535 - 1) / 1000

/-- The condition of the constructor's intrinsics check: the source's
six-way disjunction comparing each camera's focal lengths and principal
point against radial symmetry and image-center alignment. -/
def complexGuard (color_camera : ColorRenderCamera)
    (depth_camera : DepthRenderCamera) : Prop :=
  color_camera.core.intrinsics.focal_x ≠ color_camera.core.intrinsics.focal_y ∨
    color_camera.core.intrinsics.center_x ≠
      (color_camera.core.intrinsics.width : ℚ) / 2 + 1 / 2 ∨
    color_camera.core.intrinsics.center_y ≠
      (color_camera.core.intrinsics.height : ℚ) / 2 + 1 / 2 ∨
    depth_camera.core.intrinsics.focal_x ≠ depth_camera.core.intrinsics.focal_y ∨
    depth_camera.core.intrinsics.center_x ≠
      (depth_camera.core.intrinsics.width : ℚ) / 2 + 1 / 2 ∨
    depth_camera.core.intrinsics.center_y ≠
      (depth_camera.core.intrinsics.height : ℚ) / 2 + 1 / 2

instance (cc : ColorRenderCamera) (dc : DepthRenderCamera) :
    Decidable (complexGuard cc dc) := by
  unfold complexGuard; infer_instance

/-- The full-specification `RgbdSensor` constructor: stores the parent
frame, cameras and `X_PB`, and emits the two non-fatal diagnostics exactly
as the source does (asymmetric/off-center intrinsics; max depth beyond the
16-bit quantization ceiling). -/
def mkRgbdSensor (parent_id : FrameId) (X_PB : RigidTransform)
    (color_camera : ColorRenderCamera) (depth_camera : DepthRenderCamera) :
    RgbdSensor × List ConstructionWarning :=
  let ci := color_camera.core.intrinsics
  let di := depth_camera.core.intrinsics
  let intrinsicsWarnings : List ConstructionWarning :=
    if complexGuard color_camera depth_camera then
      [ConstructionWarning.complexIntrinsics
        ci.focal_x ci.focal_y ci.center_x ci.center_y
        di.focal_x di.focal_y di.center_x di.center_y]
    else []
  let saturationWarnings : List ConstructionWarning :=
    if depth_camera.depth_range.max_depth > kMaxValidDepth16UInM then
      [ConstructionWarning.maxDepthSaturation
        depth_camera.depth_range.max_depth kMaxValidDepth16UInM]
    else []
  (⟨parent_id, color_camera, depth_camera, X_PB⟩,
    intrinsicsWarnings ++ saturationWarnings)

/-- The error raised when an output evaluation reads the geometry-query
input port and it is unconnected. -/
def missingQueryError : String := "geometry_query input port is not connected"

/-- `RgbdSensor::get_query_object`: evaluate the abstract input port;
evaluation fails fatally when the port is unconnected (spec section 4.3
failure semantics; the throw itself lives in the dataflow framework). -/
def RgbdSensor.get_query_object (_s : RgbdSensor) (ctx : Context) :
    Except String QueryObject :=
  match ctx.queryObject with
  | some q => Except.ok q
  | none => Except.error missingQueryError

/-- The argument tuple `RgbdSensor::CalcColorImage` (and, with identical
values, `CalcLabelImage`) hands to the renderer: a simple camera rebuilt
from the color intrinsics, the parent frame id, the pose
`X_PB * X_BC`, and the show-window flag. -/
def RgbdSensor.colorRenderRequest (s : RgbdSensor) : SimpleRenderRequest :=
  let intr := s.color_camera.core.intrinsics
  { camera := ⟨intr.width, intr.height, intr.fov_y, s.color_camera.core.renderer_name⟩
    parent_frame := s.parent_frame_id
    X_PC := s.X_PB.comp s.color_camera.core.sensor_pose_in_camera_body
    show_window := s.color_camera.show_window }

/-- `RgbdSensor::CalcColorImage`. -/
def RgbdSensor.calcColorImage (s : RgbdSensor) (ctx : Context) :
    Except String ImageRgba8U := do
  let query ← s.get_query_object ctx
  pure (query.renderColorImage s.colorRenderRequest)

/-- The argument tuple `RgbdSensor::CalcDepthImage32F` hands to the
renderer: a simple depth camera rebuilt from the depth intrinsics and depth
range, the parent frame id, and the pose `X_PB * X_BD`. -/
def RgbdSensor.depthRenderRequest (s : RgbdSensor) : DepthRenderRequest :=
  let intr := s.depth_camera.core.intrinsics
  { camera := ⟨intr.width, intr.height, intr.fov_y,
      s.depth_camera.core.renderer_name,
      s.depth_camera.depth_range.min_depth,
      s.depth_camera.depth_range.max_depth⟩
    parent_frame := s.parent_frame_id
    X_PC := s.X_PB.comp s.depth_camera.core.sensor_pose_in_camera_body }

/-- `RgbdSensor::CalcDepthImage32F`. -/
def RgbdSensor.calcDepthImage32F (s : RgbdSensor) (ctx : Context) :
    Except String ImageDepth32F := do
  let query ← s.get_query_object ctx
  pure (query.renderDepthImage s.depthRenderRequest)

/-- `kDepth16UOverflowDistance`: `std::numeric_limits<uint16_t>::max() / 1000.`,
the clamp threshold of the depth quantizer, in meters. -/
def kDepth16UOverflowDistance : ℚ := 65535 / 1000

/-- One pixel of `RgbdSensor::ConvertDepth32FTo16U`: clamp at the overflow
distance, scale to millimeters, and truncate to an unsigned integer
(`static_cast<uint16_t>`). -/
def convertPixel16U (x : ℚ) : Nat :=
  Int.toNat (Int.floor (min x kDepth16UOverflowDistance * 1000))

/-- `RgbdSensor::ConvertDepth32FTo16U`: the per-pixel conversion written as
the source's nested loops over the destination buffer `d16`. -/
def RgbdSensor.convertDepth32FTo16U (d32 : ImageDepth32F) (d16 : ImageDepth16U) :
    ImageDepth16U :=
  (List.range d16.width).foldl
    (fun img w =>
      (List.range d16.height).foldl
        (fun img2 h => img2.setPix w h (convertPixel16U (d32.pix w h))) img)
    d16

/-- `RgbdSensor::CalcDepthImage16U`: allocate a 32-bit buffer of the output
buffer's size (the output buffer is the model value declared from the depth
intrinsics at construction), recompute the 32-bit image, then quantize. -/
def RgbdSensor.calcDepthImage16U (s : RgbdSensor) (ctx : Context) :
    Except String ImageDepth16U := do
  let intr := s.depth_camera.core.intrinsics
  let d16 : ImageDepth16U := Image.const intr.width intr.height 0
  let d32 ← s.calcDepthImage32F ctx
  pure (RgbdSensor.convertDepth32FTo16U d32 d16)

/-- `RgbdSensor::CalcLabelImage`: renders with the same argument values as
the color image (color intrinsics, color offset pose, color show-window
flag), through the label-render capability. -/
def RgbdSensor.calcLabelImage (s : RgbdSensor) (ctx : Context) :
    Except String ImageLabel16I := do
  let query ← s.get_query_object ctx
  pure (query.renderLabelImage s.colorRenderRequest)

/-- The operation the spec (section 4.2) names ComputeBodyWorldPose; it is
the world-pose logic that `RgbdSensor::CalcX_WB` implements inline: the
fixed `X_PB` when the parent is the world sentinel, otherwise the parent
frame's world pose composed with `X_PB`. -/
def computeBodyWorldPose (parent_id : FrameId) (X_PB : RigidTransform)
    (query : QueryObject) : RigidTransform :=
  if parent_id = worldFrameId then X_PB
  else (query.X_WF parent_id).comp X_PB

/-- The pose output value (`rendering::PoseVector<double>`): a translation
plus a rotation.  The source stores the rotation as the unit quaternion
`RotationMatrix::ToQuaternion` produces (external math library, an
injective re-encoding of the rotation); it is modelled here by the rotation
matrix itself. -/
structure PoseVector where
  translation : Fin 3 → ℚ
  rotation : Matrix (Fin 3) (Fin 3) ℚ
deriving DecidableEq

/-- `RgbdSensor::CalcX_WB`: branch on the world-frame sentinel, compose
with the parent frame's world pose otherwise, and emit translation and
rotation of the result. -/
def RgbdSensor.calcX_WB (s : RgbdSensor) (ctx : Context) :
    Except String PoseVector := do
  let X_WB ←
    if s.parent_frame_id = worldFrameId then
      pure s.X_PB
    else do
      let query ← s.get_query_object ctx
      pure ((query.X_WF s.parent_frame_id).comp s.X_PB)
  pure ⟨X_WB.p, X_WB.R⟩

/-- The error raised when a sample-and-hold stage is constructed with a
non-positive period. -/
def zohPeriodError : String := "sample-and-hold period must be positive"

/-- Modelled from the spec: the dataflow host's period-based sample-and-hold
primitive (`systems::ZeroOrderHold`, which is outside these sources).  Only
the construction-time data matters to the claims: the period and the
initial (time-zero) held value. -/
structure ZeroOrderHold (α : Type) where
  period : ℚ
  initial_value : α

/-- Modelled from the spec: fallible construction of a sample-and-hold
stage.  Spec section 4.5: constructing with a non-positive period is a
fatal construction-time error. -/
def makeZeroOrderHold {α : Type} (period : ℚ) (v : α) :
    Except String (ZeroOrderHold α) :=
  if 0 < period then Except.ok ⟨period, v⟩ else Except.error zohPeriodError

/-- The state `RgbdSensorDiscrete` holds after construction: the owned
continuous sensor, the shared period, one sample-and-hold stage per sampled
output, with the label stage present only when requested.  (The diagram
export of a held output port exists exactly when its stage does.) -/
structure RgbdSensorDiscrete where
  camera : RgbdSensor
  period : ℚ
  zoh_color : ZeroOrderHold ImageRgba8U
  zoh_depth_32F : ZeroOrderHold ImageDepth32F
  zoh_depth_16U : ZeroOrderHold ImageDepth16U
  zoh_label : Option (ZeroOrderHold ImageLabel16I)

/-- `RgbdSensorDiscrete::RgbdSensorDiscrete`: build one sample-and-hold
stage per output (color and label sized from the color intrinsics, the two
depth images from the depth intrinsics), all with the same period; the
label stage only when `render_label_image` is set.  The pose output is
passed through unsampled, so no stage exists for it. -/
def mkRgbdSensorDiscrete (camera : RgbdSensor) (period : ℚ)
    (render_label_image : Bool) : Except String RgbdSensorDiscrete := do
  let color_camera_info := camera.color_camera.core.intrinsics
  let depth_camera_info := camera.depth_camera.core.intrinsics
  let zoh_color ← makeZeroOrderHold period
    (Image.const color_camera_info.width color_camera_info.height defaultRgbaPixel)
  let zoh_depth_32F ← makeZeroOrderHold period
    (Image.const depth_camera_info.width depth_camera_info.height (0 : ℚ))
  let zoh_depth_16U ← makeZeroOrderHold period
    (Image.const depth_camera_info.width depth_camera_info.height (0 : Nat))
  let zoh_label ←
    if render_label_image then do
      let z ← makeZeroOrderHold period
        (Image.const color_camera_info.width color_camera_info.height (0 : ℤ))
      pure (some z)
    else
      pure none
  pure ⟨camera, period, zoh_color, zoh_depth_32F, zoh_depth_16U, zoh_label⟩

/-- Follows the spec's words (section 4.3, 16-bit depth row): the 16-bit
depth output is the Depth Quantizer applied to the 32-bit depth output
evaluated on the same context, into the construction-sized buffer. -/
def depthImage16USpec (s : RgbdSensor) (ctx : Context) :
    Except String ImageDepth16U :=
  Except.map
    (fun d32 => RgbdSensor.convertDepth32FTo16U d32
      (Image.const s.depth_camera.core.intrinsics.width
        s.depth_camera.core.intrinsics.height 0))
    (s.calcDepthImage32F ctx)

/-- Whether a construction diagnostic is the asymmetric/off-center
intrinsics warning. -/
def isComplexWarning : ConstructionWarning → Bool
  | .complexIntrinsics .. => true
  | _ => false

/-- Whether a construction diagnostic is the 16-bit depth saturation
warning. -/
def isSaturationWarning : ConstructionWarning → Bool
  | .maxDepthSaturation .. => true
  | _ => false

/-- Radial symmetry plus centered principal point, the condition the
constructor checks on each camera's intrinsics. -/
def intrinsicsSimple (c : CameraInfo) : Prop :=
  c.focal_x = c.focal_y ∧ c.center_x = (c.width : ℚ) / 2 + 1 / 2 ∧
    c.center_y = (c.height : ℚ) / 2 + 1 / 2

instance (c : CameraInfo) : Decidable (intrinsicsSimple c) := by
  unfold intrinsicsSimple; infer_instance

/- Concrete data used by the closed witness and counterexample theorems. -/

/-- A radially symmetric, centered 640 x 480 intrinsics instance. -/
def exampleIntrinsics : CameraInfo :=
  { width := 640, height := 480, focal_x := 554, focal_y := 554,
    center_x := 641 / 2, center_y := 481 / 2, fov_y := 4 / 5 }

/-- A camera core with identity sensor-body offset. -/
def exampleCore : RenderCameraCore :=
  { renderer_name := "vtk", intrinsics := exampleIntrinsics,
    clipping := ⟨1 / 100, 10⟩,
    sensor_pose_in_camera_body := RigidTransform.identity }

def exampleColorCamera : ColorRenderCamera := ⟨exampleCore, false⟩

def exampleDepthCamera : DepthRenderCamera := ⟨exampleCore, ⟨1 / 10, 5⟩⟩

/-- A pure-translation rigid transform, shifting by one along the first
axis. -/
def exampleShift : RigidTransform := ⟨1, ![1, 0, 0]⟩

/-- A non-world parent frame. -/
def otherFrame : FrameId := ⟨7⟩

/-- A sensor attached to the world frame. -/
def exampleSensorWorld : RgbdSensor :=
  (mkRgbdSensor worldFrameId exampleShift exampleColorCamera exampleDepthCamera).1

/-- A sensor attached to a non-world parent frame with identity `X_PB`. -/
def exampleSensorFrame : RgbdSensor :=
  (mkRgbdSensor otherFrame RigidTransform.identity exampleColorCamera
    exampleDepthCamera).1

def blankColorImage : ImageRgba8U := Image.const 640 480 defaultRgbaPixel

def blankDepthImage : ImageDepth32F := Image.const 640 480 0

def blankLabelImage : ImageLabel16I := Image.const 640 480 0

/-- A concrete geometry collaborator: every frame's world pose is
`exampleShift`, every render returns the matching blank image. -/
def exampleQuery : QueryObject :=
  { X_WF := fun _ => exampleShift
    renderColorImage := fun _ => blankColorImage
    renderDepthImage := fun _ => blankDepthImage
    renderLabelImage := fun _ => blankLabelImage }

/-- A context whose geometry-query input port is unconnected. -/
def ctxNone : Context := ⟨none⟩

/-- A context whose geometry-query input port carries `exampleQuery`. -/
def ctxSome : Context := ⟨some exampleQuery⟩

/-! Helper lemmas. -/

theorem Image.setPix_width {α : Type} (img : Image α) (w h : Nat) (v : α) :
    (img.setPix w h v).width = img.width := rfl

theorem Image.setPix_height {α : Type} (img : Image α) (w h : Nat) (v : α) :
    (img.setPix w h v).height = img.height := rfl

/-- Characterization of one inner (fixed-column) pass of the conversion
loop: dimensions are preserved and exactly the pixels of column `w` with a
row in `L` are overwritten with `g w`. -/
theorem foldl_setPix_row {α : Type} (g : Nat → Nat → α) (w : Nat) :
    ∀ (L : List Nat) (img : Image α),
      ((L.foldl (fun im h => im.setPix w h (g w h)) img).width = img.width ∧
        (L.foldl (fun im h => im.setPix w h (g w h)) img).height = img.height) ∧
      ∀ w2 h2, (L.foldl (fun im h => im.setPix w h (g w h)) img).pix w2 h2 =
        if w2 = w ∧ h2 ∈ L then g w h2 else img.pix w2 h2
  | [], img => by
      refine ⟨⟨rfl, rfl⟩, ?_⟩
      intro w2 h2
      simp
  | h :: t, img => by
      obtain ⟨⟨iw, ih⟩, ipix⟩ := foldl_setPix_row g w t (img.setPix w h (g w h))
      refine ⟨⟨?_, ?_⟩, ?_⟩
      · rw [List.foldl_cons]; exact iw
      · rw [List.foldl_cons]; exact ih
      · intro w2 h2
        rw [List.foldl_cons, ipix w2 h2]
        by_cases hw2 : w2 = w <;>
          by_cases hht : h2 ∈ t <;>
          by_cases hhh : h2 = h <;>
          simp_all [Image.setPix, List.mem_cons]

/-- Characterization of the full nested conversion loop: dimensions are
preserved and exactly the pixels with a column in `Lw` and a row below `H`
are overwritten with `g`. -/
theorem foldl_setPix_grid {α : Type} (g : Nat → Nat → α) (H : Nat) :
    ∀ (Lw : List Nat) (img : Image α),
      ((Lw.foldl (fun im w => (List.range H).foldl
          (fun im2 h => im2.setPix w h (g w h)) im) img).width = img.width ∧
        (Lw.foldl (fun im w => (List.range H).foldl
          (fun im2 h => im2.setPix w h (g w h)) im) img).height = img.height) ∧
      ∀ w2 h2, (Lw.foldl (fun im w => (List.range H).foldl
          (fun im2 h => im2.setPix w h (g w h)) im) img).pix w2 h2 =
        if w2 ∈ Lw ∧ h2 < H then g w2 h2 else img.pix w2 h2
  | [], img => by
      refine ⟨⟨rfl, rfl⟩, ?_⟩
      intro w2 h2
      simp
  | w :: t, img => by
      obtain ⟨⟨rw2, rh2⟩, rpix⟩ := foldl_setPix_row g w (List.range H) img
      obtain ⟨⟨iw, ih⟩, ipix⟩ := foldl_setPix_grid g H t
        ((List.range H).foldl (fun im2 h => im2.setPix w h (g w h)) img)
      refine ⟨⟨?_, ?_⟩, ?_⟩
      · rw [List.foldl_cons]; exact iw.trans rw2
      · rw [List.foldl_cons]; exact ih.trans rh2
      · intro w2 h2
        rw [List.foldl_cons, ipix w2 h2, rpix w2 h2]
        by_cases hw2t : w2 ∈ t <;>
          by_cases hw2w : w2 = w <;>
          by_cases hh2 : h2 < H <;>
          simp_all [List.mem_cons, List.mem_range]

/-- The per-pixel quantizer saturates at the uint16 maximum. -/
theorem convertPixel16U_saturated (x : ℚ) (hx : kDepth16UOverflowDistance ≤ x) :
    convertPixel16U x = 65535 := by
  unfold convertPixel16U
  rw [min_eq_right hx]
  norm_num [kDepth16UOverflowDistance]
  rfl

/-- The per-pixel quantizer is monotone. -/
theorem convertPixel16U_mono {x y : ℚ} (hxy : x ≤ y) :
    convertPixel16U x ≤ convertPixel16U y := by
  unfold convertPixel16U
  have h1 : min x kDepth16UOverflowDistance ≤ min y kDepth16UOverflowDistance :=
    min_le_min hxy le_rfl
  have h2 : min x kDepth16UOverflowDistance * 1000 ≤
      min y kDepth16UOverflowDistance * 1000 :=
    mul_le_mul_of_nonneg_right h1 (by norm_num)
  exact Int.toNat_le_toNat (Int.floor_le_floor h2)

/-- The per-pixel quantizer is idempotent under re-expression of its output
in meters, on the representable range. -/
theorem convertPixel16U_idem (x : ℚ) (h0 : 0 ≤ x) (h1 : x ≤ 65535 / 1000) :
    convertPixel16U ((convertPixel16U x : ℚ) / 1000) = convertPixel16U x := by
  have hc : kDepth16UOverflowDistance = 65535 / 1000 := rfl
  have hmin : min x kDepth16UOverflowDistance = x := min_eq_left (hc ▸ h1)
  have hn0 : (0 : ℤ) ≤ Int.floor (x * 1000) :=
    Int.floor_nonneg.mpr (by positivity)
  have hnat : ((Int.toNat (Int.floor (x * 1000)) : ℚ)) =
      ((Int.floor (x * 1000) : ℤ) : ℚ) := by
    exact_mod_cast congrArg (fun z : ℤ => (z : ℚ)) (Int.toNat_of_nonneg hn0)
  have hle : ((Int.floor (x * 1000) : ℤ) : ℚ) ≤ 65535 := by
    have hx1000 : x * 1000 ≤ 65535 := by linarith
    calc ((Int.floor (x * 1000) : ℤ) : ℚ) ≤ x * 1000 := Int.floor_le _
      _ ≤ 65535 := hx1000
  unfold convertPixel16U
  rw [hmin]
  have harg : ((Int.toNat (Int.floor (x * 1000)) : ℚ)) / 1000 ≤
      kDepth16UOverflowDistance := by
    rw [hc, hnat]
    linarith
  rw [min_eq_left harg, hnat, div_mul_cancel₀ _ (by norm_num : (1000 : ℚ) ≠ 0),
    Int.floor_intCast]

/-- C3: for every input float depth image (converted into a destination
buffer of matching dimensions, as at the only call site), the depth
quantizer produces an unsigned 16-bit image of the same dimensions in which
each pixel equals `min(float_value, 65535 / 1000) * 1000` truncated to an
unsigned integer; in particular every pixel at or beyond `65535 / 1000`
converts to `65535` — silent saturation, never wrapping or an error. -/
theorem c3_convert_depth_formula (d32 : ImageDepth32F) (d16 : ImageDepth16U)
    (hw : d16.width = d32.width) (hh : d16.height = d32.height) :
    (RgbdSensor.convertDepth32FTo16U d32 d16).width = d32.width ∧
    (RgbdSensor.convertDepth32FTo16U d32 d16).height = d32.height ∧
    (∀ w h, w < d32.width → h < d32.height →
      (RgbdSensor.convertDepth32FTo16U d32 d16).pix w h =
        Int.toNat (Int.floor (min (d32.pix w h) (65535 / 1000) * 1000))) ∧
    (∀ w h, w < d32.width → h < d32.height →
      (65535 : ℚ) / 1000 ≤ d32.pix w h →
      (RgbdSensor.convertDepth32FTo16U d32 d16).pix w h = 65535) := by
  obtain ⟨⟨gw, gh⟩, gpix⟩ := foldl_setPix_grid
    (fun w h => convertPixel16U (d32.pix w h)) d16.height (List.range d16.width) d16
  have hpix : ∀ w h, w < d32.width → h < d32.height →
      (RgbdSensor.convertDepth32FTo16U d32 d16).pix w h =
        convertPixel16U (d32.pix w h) := by
    intro w h hwlt hhlt
    have := gpix w h
    rw [if_pos ⟨List.mem_range.mpr (by rw [hw]; exact hwlt),
      (by rw [hh]; exact hhlt : h < d16.height)⟩] at this
    exact this
  refine ⟨gw.trans hw, gh.trans hh, ?_, ?_⟩
  · intro w h hwlt hhlt
    exact hpix w h hwlt hhlt
  · intro w h hwlt hhlt hsat
    rw [hpix w h hwlt hhlt]
    exact convertPixel16U_saturated (d32.pix w h) hsat

/-- C3 witness: a concrete two-by-two image of depth 70 meters (beyond the
representable ceiling) converts to 65535, with the claimed formula and
preserved dimensions, via the claim theorem. -/
theorem c3_witness :
    (Image.const 2 2 (0 : Nat)).width = (Image.const 2 2 (70 : ℚ)).width ∧
    (Image.const 2 2 (0 : Nat)).height = (Image.const 2 2 (70 : ℚ)).height ∧
    (RgbdSensor.convertDepth32FTo16U (Image.const 2 2 (70 : ℚ))
      (Image.const 2 2 (0 : Nat))).width = 2 ∧
    (RgbdSensor.convertDepth32FTo16U (Image.const 2 2 (70 : ℚ))
      (Image.const 2 2 (0 : Nat))).pix 0 0 = 65535 := by
  have h := c3_convert_depth_formula (Image.const 2 2 (70 : ℚ))
    (Image.const 2 2 (0 : Nat)) rfl rfl
  exact ⟨rfl, rfl, h.1, h.2.2.2 0 0 (by norm_num [Image.const])
    (by norm_num [Image.const]) (by norm_num [Image.const])⟩

/-- C4: for every sensor and context, the 16-bit depth output equals the
depth quantizer applied to the 32-bit depth output evaluated on the same
context (the 16-bit computation recomputes the 32-bit image internally,
and rendering is a function of the context in this model). -/
theorem c4_depth16_refinement (s : RgbdSensor) (ctx : Context) :
    s.calcDepthImage16U ctx = depthImage16USpec s ctx := by
  unfold RgbdSensor.calcDepthImage16U depthImage16USpec
    RgbdSensor.calcDepthImage32F RgbdSensor.get_query_object
  cases ctx.queryObject <;> rfl

/-- C9: the depth quantizer is per-pixel monotone on (defined-behavior)
nonnegative depths, and idempotent under re-quantization of its own output
re-expressed in meters, for inputs in the representable range. -/
theorem c9_quantizer_monotone_idempotent :
    (∀ x y : ℚ, 0 ≤ x → x ≤ y → convertPixel16U x ≤ convertPixel16U y) ∧
    (∀ x : ℚ, 0 ≤ x → x ≤ 65535 / 1000 →
      convertPixel16U ((convertPixel16U x : ℚ) / 1000) = convertPixel16U x) := by
  constructor
  · intro x y _ hxy
    exact convertPixel16U_mono hxy
  · intro x h0 h1
    exact convertPixel16U_idem x h0 h1

/-- C9 witness: monotonicity at 1 and 2 meters, idempotence at 2.5 meters,
via the claim theorem. -/
theorem c9_witness :
    convertPixel16U 1 ≤ convertPixel16U 2 ∧
    convertPixel16U ((convertPixel16U (5 / 2) : ℚ) / 1000) =
      convertPixel16U (5 / 2) :=
  ⟨c9_quantizer_monotone_idempotent.1 1 2 (by norm_num) (by norm_num),
    c9_quantizer_monotone_idempotent.2 (5 / 2) (by norm_num) (by norm_num)⟩

/-- Composing any rigid transform with the identity on the right gives the
transform back. -/
theorem RigidTransform.comp_identity (X : RigidTransform) :
    X.comp RigidTransform.identity = X := by
  cases X with
  | mk R p =>
    simp [RigidTransform.comp, RigidTransform.identity, Matrix.mulVec_zero]

/-- C2: for every sensor and context, the world-pose output equals the
fixed `X_PB` when the parent frame id is the world-frame sentinel (for any
context, connected or not, so no geometry lookup is performed), and
otherwise equals `X_WF(parent_frame_id) * X_PB` for the query object on the
port; the result is emitted as translation plus rotation (the source
re-encodes the rotation as a unit quaternion via the external math
library). -/
theorem c2_world_pose_output (s : RgbdSensor) (ctx : Context) :
    (s.parent_frame_id = worldFrameId →
      s.calcX_WB ctx = Except.ok ⟨s.X_PB.p, s.X_PB.R⟩) ∧
    (s.parent_frame_id ≠ worldFrameId → ∀ q, ctx.queryObject = some q →
      s.calcX_WB ctx =
        Except.ok ⟨((q.X_WF s.parent_frame_id).comp s.X_PB).p,
          ((q.X_WF s.parent_frame_id).comp s.X_PB).R⟩) := by
  constructor
  · intro hw
    unfold RgbdSensor.calcX_WB
    rw [if_pos hw]
    rfl
  · intro hne q hq
    unfold RgbdSensor.calcX_WB RgbdSensor.get_query_object
    rw [if_neg hne, hq]
    rfl

/-- C2 witness: the world-attached example sensor returns its `X_PB` even
on an unconnected context, and the frame-attached example sensor composes
the stub query's world pose with `X_PB`, via the claim theorem. -/
theorem c2_witness :
    exampleSensorWorld.calcX_WB ctxNone =
      Except.ok ⟨exampleSensorWorld.X_PB.p, exampleSensorWorld.X_PB.R⟩ ∧
    exampleSensorFrame.calcX_WB ctxSome =
      Except.ok
        ⟨((exampleQuery.X_WF exampleSensorFrame.parent_frame_id).comp
            exampleSensorFrame.X_PB).p,
          ((exampleQuery.X_WF exampleSensorFrame.parent_frame_id).comp
            exampleSensorFrame.X_PB).R⟩ :=
  ⟨(c2_world_pose_output exampleSensorWorld ctxNone).1 rfl,
    (c2_world_pose_output exampleSensorFrame ctxSome).2 (by decide)
      exampleQuery rfl⟩

/-- C10: with the world-frame sentinel as parent, the world-pose output
never reads the geometry query input, so it succeeds (returning `X_PB`)
even on an unconnected context; the fatal missing-input error hits the four
image outputs on an unconnected context, and the world-pose output only for
non-world parent frames. -/
theorem c10_world_pose_no_query (s : RgbdSensor) :
    (s.parent_frame_id = worldFrameId →
      s.calcX_WB ⟨none⟩ = Except.ok ⟨s.X_PB.p, s.X_PB.R⟩) ∧
    (s.parent_frame_id ≠ worldFrameId →
      s.calcX_WB ⟨none⟩ = Except.error missingQueryError) ∧
    s.calcColorImage ⟨none⟩ = Except.error missingQueryError ∧
    s.calcDepthImage32F ⟨none⟩ = Except.error missingQueryError ∧
    s.calcDepthImage16U ⟨none⟩ = Except.error missingQueryError ∧
    s.calcLabelImage ⟨none⟩ = Except.error missingQueryError := by
  refine ⟨?_, ?_, ?_, ?_, ?_, ?_⟩
  · intro hw
    unfold RgbdSensor.calcX_WB
    rw [if_pos hw]
    rfl
  · intro hne
    unfold RgbdSensor.calcX_WB RgbdSensor.get_query_object
    rw [if_neg hne]
    rfl
  · rfl
  · rfl
  · rfl
  · rfl

/-- C10 witness: the world-attached example sensor's pose output succeeds
on the unconnected context while its color output and the frame-attached
sensor's pose output fail there, via the claim theorem. -/
theorem c10_witness :
    exampleSensorWorld.calcX_WB ctxNone =
      Except.ok ⟨exampleSensorWorld.X_PB.p, exampleSensorWorld.X_PB.R⟩ ∧
    exampleSensorWorld.calcColorImage ctxNone = Except.error missingQueryError ∧
    exampleSensorFrame.calcX_WB ctxNone = Except.error missingQueryError :=
  ⟨(c10_world_pose_no_query exampleSensorWorld).1 rfl,
    (c10_world_pose_no_query exampleSensorWorld).2.2.1,
    (c10_world_pose_no_query exampleSensorFrame).2.1 (by decide)⟩

/-- C1 counterexample: a sensor attached to a non-world frame whose stub
geometry service places that frame away from the origin.  The color
evaluation succeeds and hands the renderer the request built from
`X_PB * X_BC`, yet that pose differs from ComputeBodyWorldPose composed
with the color sensor-body offset — refuting the claim that the handed
pose is always the body-world-pose composition. -/
theorem c1_counterexample :
    exampleSensorFrame.calcColorImage ctxSome =
      Except.ok (exampleQuery.renderColorImage
        exampleSensorFrame.colorRenderRequest) ∧
    exampleSensorFrame.colorRenderRequest.X_PC ≠
      (computeBodyWorldPose exampleSensorFrame.parent_frame_id
          exampleSensorFrame.X_PB exampleQuery).comp
        exampleSensorFrame.color_camera.core.sensor_pose_in_camera_body := by
  refine ⟨rfl, ?_⟩
  intro hEq
  have hL : exampleSensorFrame.colorRenderRequest.X_PC =
      RigidTransform.identity :=
    RigidTransform.comp_identity RigidTransform.identity
  have hcb : computeBodyWorldPose exampleSensorFrame.parent_frame_id
      exampleSensorFrame.X_PB exampleQuery = exampleShift := by
    unfold computeBodyWorldPose
    rw [if_neg (by decide : ¬ exampleSensorFrame.parent_frame_id = worldFrameId)]
    exact RigidTransform.comp_identity exampleShift
  rw [hL, hcb] at hEq
  have hR : exampleShift.comp
      exampleSensorFrame.color_camera.core.sensor_pose_in_camera_body =
      exampleShift :=
    RigidTransform.comp_identity exampleShift
  rw [hR] at hEq
  have hp := congrArg (fun t => t.p 0) hEq
  simp [RigidTransform.identity, exampleShift] at hp

/-- C1 (amended): for every evaluation of the color image output, the pose
handed to the renderer's color-render operation is the fixed parent-to-body
transform `X_PB` composed with the color sensor-body offset — the camera
pose expressed in the parent frame, which the renderer resolves itself via
the parent frame id also passed — together with the camera spec and the
show-window flag; it equals ComputeBodyWorldPose composed with the offset
when the parent frame is the world sentinel. -/
theorem c1_color_pose_amended (s : RgbdSensor) (ctx : Context)
    (q : QueryObject) (hq : ctx.queryObject = some q) :
    s.calcColorImage ctx =
      Except.ok (q.renderColorImage s.colorRenderRequest) ∧
    s.colorRenderRequest.X_PC =
      s.X_PB.comp s.color_camera.core.sensor_pose_in_camera_body ∧
    s.colorRenderRequest.parent_frame = s.parent_frame_id ∧
    s.colorRenderRequest.show_window = s.color_camera.show_window ∧
    s.colorRenderRequest.camera =
      ⟨s.color_camera.core.intrinsics.width,
        s.color_camera.core.intrinsics.height,
        s.color_camera.core.intrinsics.fov_y,
        s.color_camera.core.renderer_name⟩ ∧
    (s.parent_frame_id = worldFrameId →
      s.colorRenderRequest.X_PC =
        (computeBodyWorldPose s.parent_frame_id s.X_PB q).comp
          s.color_camera.core.sensor_pose_in_camera_body) := by
  refine ⟨?_, rfl, rfl, rfl, rfl, ?_⟩
  · unfold RgbdSensor.calcColorImage RgbdSensor.get_query_object
    rw [hq]
    rfl
  · intro hw
    simp [computeBodyWorldPose, hw, RgbdSensor.colorRenderRequest]

/-- C1 witness: the world-attached example sensor on the connected context,
via the amended theorem. -/
theorem c1_witness :
    exampleSensorWorld.calcColorImage ctxSome =
      Except.ok (exampleQuery.renderColorImage
        exampleSensorWorld.colorRenderRequest) ∧
    exampleSensorWorld.colorRenderRequest.X_PC =
      exampleSensorWorld.X_PB.comp
        exampleSensorWorld.color_camera.core.sensor_pose_in_camera_body ∧
    exampleSensorWorld.colorRenderRequest.X_PC =
      (computeBodyWorldPose exampleSensorWorld.parent_frame_id
          exampleSensorWorld.X_PB exampleQuery).comp
        exampleSensorWorld.color_camera.core.sensor_pose_in_camera_body := by
  have h := c1_color_pose_amended exampleSensorWorld ctxSome exampleQuery rfl
  exact ⟨h.1, h.2.1, h.2.2.2.2.2 rfl⟩

/-- The constructor's intrinsics guard fails exactly when both cameras'
intrinsics are radially symmetric and centered. -/
theorem not_complexGuard_iff (cc : ColorRenderCamera) (dc : DepthRenderCamera) :
    ¬ complexGuard cc dc ↔
      (intrinsicsSimple cc.core.intrinsics ∧ intrinsicsSimple dc.core.intrinsics) := by
  unfold complexGuard intrinsicsSimple
  constructor
  · intro h
    push_neg at h
    exact ⟨⟨h.1, h.2.1, h.2.2.1⟩, h.2.2.2.1, h.2.2.2.2.1, h.2.2.2.2.2⟩
  · rintro ⟨⟨h1, h2, h3⟩, h4, h5, h6⟩ h
    rcases h with h | h | h | h | h | h <;> exact h (by assumption)

/-- C5: construction emits the asymmetric/off-center intrinsics diagnostic
— carrying both cameras' focal lengths and principal points — exactly once
when either camera violates radial symmetry or principal-point centering,
and not at all when both satisfy them; construction succeeds (the sensor is
built from the given data) either way. -/
theorem c5_intrinsics_warning (parent_id : FrameId) (X_PB : RigidTransform)
    (cc : ColorRenderCamera) (dc : DepthRenderCamera) :
    ((mkRgbdSensor parent_id X_PB cc dc).2.filter isComplexWarning =
      if intrinsicsSimple cc.core.intrinsics ∧ intrinsicsSimple dc.core.intrinsics
      then []
      else [ConstructionWarning.complexIntrinsics
        cc.core.intrinsics.focal_x cc.core.intrinsics.focal_y
        cc.core.intrinsics.center_x cc.core.intrinsics.center_y
        dc.core.intrinsics.focal_x dc.core.intrinsics.focal_y
        dc.core.intrinsics.center_x dc.core.intrinsics.center_y]) ∧
    (mkRgbdSensor parent_id X_PB cc dc).1 = ⟨parent_id, cc, dc, X_PB⟩ := by
  refine ⟨?_, rfl⟩
  have hsnd : (mkRgbdSensor parent_id X_PB cc dc).2 =
      (if complexGuard cc dc then
        [ConstructionWarning.complexIntrinsics
          cc.core.intrinsics.focal_x cc.core.intrinsics.focal_y
          cc.core.intrinsics.center_x cc.core.intrinsics.center_y
          dc.core.intrinsics.focal_x dc.core.intrinsics.focal_y
          dc.core.intrinsics.center_x dc.core.intrinsics.center_y]
      else []) ++
      (if dc.depth_range.max_depth > kMaxValidDepth16UInM then
        [ConstructionWarning.maxDepthSaturation
          dc.depth_range.max_depth kMaxValidDepth16UInM]
      else []) := rfl
  have hsat : ((if dc.depth_range.max_depth > kMaxValidDepth16UInM then
      [ConstructionWarning.maxDepthSaturation
        dc.depth_range.max_depth kMaxValidDepth16UInM]
    else []).filter isComplexWarning) = [] := by
    split <;> simp [isComplexWarning]
  rw [hsnd, List.filter_append, hsat, List.append_nil]
  by_cases hs : intrinsicsSimple cc.core.intrinsics ∧ intrinsicsSimple dc.core.intrinsics
  · rw [if_pos hs, if_neg ((not_complexGuard_iff cc dc).mpr hs)]
    rfl
  · have hG : complexGuard cc dc := by
      by_contra hng
      exact hs ((not_complexGuard_iff cc dc).mp hng)
    rw [if_neg hs, if_pos hG]
    simp [isComplexWarning]

/-- C6: construction emits the 16-bit saturation diagnostic — carrying the
offending max depth and the representable ceiling — exactly when the depth
spec's max depth exceeds `(2^16 - 2) / 1000` length units, and construction
succeeds either way. -/
theorem c6_saturation_warning (parent_id : FrameId) (X_PB : RigidTransform)
    (cc : ColorRenderCamera) (dc : DepthRenderCamera) :
    ((mkRgbdSensor parent_id X_PB cc dc).2.filter isSaturationWarning =
      if dc.depth_range.max_depth > (65534 : ℚ) / 1000 then
        [ConstructionWarning.maxDepthSaturation
          dc.depth_range.max_depth ((65534 : ℚ) / 1000)]
      else []) ∧
    (mkRgbdSensor parent_id X_PB cc dc).1 = ⟨parent_id, cc, dc, X_PB⟩ := by
  refine ⟨?_, rfl⟩
  have hsnd : (mkRgbdSensor parent_id X_PB cc dc).2 =
      (if complexGuard cc dc then
        [ConstructionWarning.complexIntrinsics
          cc.core.intrinsics.focal_x cc.core.intrinsics.focal_y
          cc.core.intrinsics.center_x cc.core.intrinsics.center_y
          dc.core.intrinsics.focal_x dc.core.intrinsics.focal_y
          dc.core.intrinsics.center_x dc.core.intrinsics.center_y]
      else []) ++
      (if dc.depth_range.max_depth > kMaxValidDepth16UInM then
        [ConstructionWarning.maxDepthSaturation
          dc.depth_range.max_depth kMaxValidDepth16UInM]
      else []) := rfl
  have hcomplex : ((if complexGuard cc dc then
      [ConstructionWarning.complexIntrinsics
        cc.core.intrinsics.focal_x cc.core.intrinsics.focal_y
        cc.core.intrinsics.center_x cc.core.intrinsics.center_y
        dc.core.intrinsics.focal_x dc.core.intrinsics.focal_y
        dc.core.intrinsics.center_x dc.core.intrinsics.center_y]
    else []).filter isSaturationWarning) = [] := by
    split <;> simp [isSaturationWarning]
  have hk : kMaxValidDepth16UInM = (65534 : ℚ) / 1000 := by
    norm_num [kMaxValidDepth16UInM]
  rw [hsnd, List.filter_append, hcomplex, List.nil_append, hk]
  split <;> simp [isSaturationWarning]

/-- A sample-and-hold stage built with a positive period records that
period and the given initial value. -/
theorem makeZeroOrderHold_pos {α : Type} (period : ℚ) (v : α)
    (h : 0 < period) :
    makeZeroOrderHold period v = Except.ok ⟨period, v⟩ := by
  unfold makeZeroOrderHold
  rw [if_pos h]

/-- A sample-and-hold stage built with a non-positive period fails. -/
theorem makeZeroOrderHold_nonpos {α : Type} (period : ℚ) (v : α)
    (h : period ≤ 0) :
    makeZeroOrderHold period v = Except.error zohPeriodError := by
  unfold makeZeroOrderHold
  rw [if_neg (not_lt.mpr h)]

/-- C7: constructing the discrete sampling composition with a sampling
period that is not strictly positive is a fatal construction-time error
(object creation is rejected), for every camera and label flag. -/
theorem c7_discrete_nonpositive_period (camera : RgbdSensor) (period : ℚ)
    (render_label_image : Bool) (h : period ≤ 0) :
    mkRgbdSensorDiscrete camera period render_label_image =
      Except.error zohPeriodError := by
  cases render_label_image <;>
    simp only [mkRgbdSensorDiscrete, makeZeroOrderHold_nonpos _ _ h] <;> rfl

/-- C7 witness: period zero rejects construction, via the claim theorem. -/
theorem c7_witness :
    mkRgbdSensorDiscrete exampleSensorWorld 0 true =
      Except.error zohPeriodError :=
  c7_discrete_nonpositive_period exampleSensorWorld 0 true le_rfl

/-- C8: for every discrete construction with a (valid) positive period, the
held label stage exists exactly when the label-sampling flag is set, and
when present it uses the same period as the color and depth stages. -/
theorem c8_label_stage (camera : RgbdSensor) (period : ℚ) (flag : Bool)
    (h : 0 < period) :
    Except.map (fun d => (d.zoh_label.isSome,
        d.zoh_label.map (fun z => z.period),
        d.zoh_color.period, d.zoh_depth_32F.period, d.zoh_depth_16U.period))
      (mkRgbdSensorDiscrete camera period flag) =
      Except.ok (flag, if flag = true then some period else none,
        period, period, period) := by
  cases flag <;>
    simp only [mkRgbdSensorDiscrete, makeZeroOrderHold_pos _ _ h] <;> rfl

/-- C8 witness: with period one, the label stage is present with period one
exactly when the flag is set, via the claim theorem. -/
theorem c8_witness :
    Except.map (fun d => (d.zoh_label.isSome,
        d.zoh_label.map (fun z => z.period),
        d.zoh_color.period, d.zoh_depth_32F.period, d.zoh_depth_16U.period))
      (mkRgbdSensorDiscrete exampleSensorWorld 1 true) =
      Except.ok (true, some 1, 1, 1, 1) ∧
    Except.map (fun d => (d.zoh_label.isSome,
        d.zoh_label.map (fun z => z.period),
        d.zoh_color.period, d.zoh_depth_32F.period, d.zoh_depth_16U.period))
      (mkRgbdSensorDiscrete exampleSensorWorld 1 false) =
      Except.ok (false, none, 1, 1, 1) := by
  have h1 := c8_label_stage exampleSensorWorld 1 true (by norm_num)
  have h2 := c8_label_stage exampleSensorWorld 1 false (by norm_num)
  constructor
  · simpa using h1
  · simpa using h2

end DrakeRgbd
